import Mathlib

/-!
Verification of the MS5611 barometric pressure sensor driver.

The driver (MS5611.cpp / MS5611.h) is shallowly embedded below:

* the pure compensation arithmetic of `MS5611::readTemperature` and
  `MS5611::readPressure` (lines 162-223 of MS5611.cpp) is embedded as pure
  functions on `Int`, parameterized by the raw ADC samples `D1`/`D2` that the
  hardware would supply; C `uint32_t`/`int32_t` conversions are made explicit
  through `toUInt32`/`toInt32` (two's-complement wrap model) and C's
  truncating signed division is `Int.tdiv`;
* the bus-facing operations (`readRegister16`, `readRegister24`,
  `getCalibrationData`, `readRawTemperature`, `readRawPressure`, `begin`,
  `setOversampling`, `getOversampling`, `performReset`) are embedded as
  explicit state-passing functions over a `Wire` bus model that records the
  transaction log and serves bytes from an arbitrary stream, together with an
  `MS5611St` record holding the driver's member variables;
* the floating-point altitude helpers `getAltitude` / `getSeaLevel` are
  embedded over `ℝ`, reading their decimal literals exactly.

Definitions suffixed `Spec` follow the natural-language specification's
formulas (ideal unbounded integer arithmetic); they exist only to be compared
against the code-derived definitions.
-/

namespace MS5611

/-- Reinterpret an integer as a C `uint32_t` value (reduction mod 2^32). -/
def toUInt32 (x : Int) : Int := x % 4294967296

/-- Reinterpret an integer as a C `int32_t` value (two's-complement wrap). -/
def toInt32 (x : Int) : Int := (x + 2147483648) % 4294967296 - 2147483648

/-- The six 16-bit calibration coefficients `filterCoefficient[0..5]`. -/
def Coeffs := Fin 6 → Nat

/-- Embeds `int32_t dT = D2 - (uint32_t)filterCoefficient[4] * 256;`
(MS5611.cpp line 164/198): the subtraction happens in `uint32_t` arithmetic
and the result is reinterpreted as `int32_t`. -/
def dTcode (C : Coeffs) (D2 : Nat) : Int :=
  toInt32 (toUInt32 ((D2 : Int) - (C 4 : Int) * 256))

/-- Embeds `int32_t temperature = 2000 + ((int64_t) dT * filterCoefficient[5]) / 8388608;`
(MS5611.cpp lines 166/204): 64-bit product and truncating division, stored
into an `int32_t`. -/
def temperatureBase (C : Coeffs) (dt : Int) : Int :=
  toInt32 (2000 + Int.tdiv (dt * (C 5 : Int)) 8388608)

/-- Embeds `temperature2 = (dT * dT) / pow(2, 31);` (MS5611.cpp line 171):
`dT * dT` is a wrapping 32-bit product, the division happens in `double`
(exact, since the numerator has at most 31 bits) and the store into the
`int32_t` field `temperature2` truncates toward zero, which is `Int.tdiv`. -/
def temperature2code (dt : Int) : Int :=
  Int.tdiv (toInt32 (dt * dt)) 2147483648

/-- Embeds the arithmetic of `MS5611::readTemperature` (MS5611.cpp lines
162-177) given the raw sample `D2` returned by `readRawTemperature`,
producing the `int32_t` value `temperature` in hundredths of a degree just
before the final `/100` scaling.  The inner branch tests the just-zeroed
member `temperature2` (i.e. `0 < 2000`), exactly as the code does. -/
def readTemperatureHund (C : Coeffs) (D2 : Nat) (compensation : Bool) : Int :=
  let dt := dTcode C D2
  let t := temperatureBase C dt
  let t2 : Int := if compensation then (if (0 : Int) < 2000 then temperature2code dt else 0) else 0
  toInt32 (t - t2)

/-- Embeds the return value `((double)temperature/100)` of
`MS5611::readTemperature` as an exact rational. -/
def readTemperature (C : Coeffs) (D2 : Nat) (compensation : Bool) : ℚ :=
  (readTemperatureHund C D2 compensation : ℚ) / 100

/-- Embeds `int64_t offset = (int64_t)filterCoefficient[1] * 65536 + (int64_t)filterCoefficient[3] * dT / 128;`
(MS5611.cpp line 200). -/
def offsetCode (C : Coeffs) (dt : Int) : Int :=
  (C 1 : Int) * 65536 + Int.tdiv ((C 3 : Int) * dt) 128

/-- Embeds `int64_t sensitivity = (int64_t)filterCoefficient[0] * 32768 + (int64_t)filterCoefficient[2] * dT / 256;`
(MS5611.cpp line 201). -/
def sensitivityCode (C : Coeffs) (dt : Int) : Int :=
  (C 0 : Int) * 32768 + Int.tdiv ((C 2 : Int) * dt) 256

/-- Embeds the value of the `int64_t` member `offset2` after the two guarded
assignments of MS5611.cpp lines 206-216: both squared terms and their small
multiples are evaluated in (wrapping) `int32_t` arithmetic before being
widened to `int64_t`. -/
def offset2code (t : Int) : Int :=
  (if t < 2000 then Int.tdiv (toInt32 (5 * toInt32 ((t - 2000) * (t - 2000)))) 2 else 0)
  + (if t < -1500 then toInt32 (7 * toInt32 ((t + 1500) * (t + 1500))) else 0)

/-- Embeds the value of the `int64_t` member `sensitivity2` after the two
guarded assignments of MS5611.cpp lines 207-216. -/
def sensitivity2code (t : Int) : Int :=
  (if t < 2000 then Int.tdiv (toInt32 (5 * toInt32 ((t - 2000) * (t - 2000)))) 4 else 0)
  + (if t < -1500 then Int.tdiv (toInt32 (11 * toInt32 ((t + 1500) * (t + 1500)))) 2 else 0)

/-- Embeds the arithmetic of `MS5611::readPressure` (MS5611.cpp lines
194-223) given the raw samples `D1`, `D2`: the final expression
`(D1 * sensitivity / 2097152 - offset) / 32768` is 64-bit, stored into the
`uint32_t` local `pres` and returned through the `int32_t` return type. -/
def readPressureCode (C : Coeffs) (D1 D2 : Nat) (compensation : Bool) : Int :=
  let dt := dTcode C D2
  let offset := offsetCode C dt
  let sensitivity := sensitivityCode C dt
  let t := temperatureBase C dt
  let offset' := if compensation then offset - offset2code t else offset
  let sensitivity' := if compensation then sensitivity - sensitivity2code t else sensitivity
  toInt32 (toUInt32 (Int.tdiv (Int.tdiv ((D1 : Int) * sensitivity') 2097152 - offset') 32768))

/-- Specification-side `dT = D2 - C[4] * 256` in ideal integer arithmetic. -/
def dTspec (C : Coeffs) (D2 : Nat) : Int := (D2 : Int) - (C 4 : Int) * 256

/-- Specification-side `TEMP = 2000 + (dT * C[5]) / 8388608` in ideal integer
arithmetic (truncating division). -/
def tempSpec (C : Coeffs) (D2 : Nat) : Int :=
  2000 + Int.tdiv (dTspec C D2 * (C 5 : Int)) 8388608

/-- Specification-side temperature in hundredths: subtract `(dT*dT)/2^31`
from `TEMP` when compensation is requested and `TEMP < 2000`, per the claim. -/
def readTemperatureSpecHund (C : Coeffs) (D2 : Nat) (compensation : Bool) : Int :=
  let t := tempSpec C D2
  if compensation ∧ t < 2000 then
    t - Int.tdiv (dTspec C D2 * dTspec C D2) 2147483648
  else t

/-- Specification-side `OFF2` in ideal integer arithmetic:
`5*(TEMP-2000)^2/2`, plus `7*(TEMP+1500)^2` when additionally `TEMP < -1500`. -/
def offset2spec (t : Int) : Int :=
  if t < 2000 then
    Int.tdiv (5 * ((t - 2000) * (t - 2000))) 2
    + (if t < -1500 then 7 * ((t + 1500) * (t + 1500)) else 0)
  else 0

/-- Specification-side `SENS2` in ideal integer arithmetic:
`5*(TEMP-2000)^2/4`, plus `11*(TEMP+1500)^2/2` when additionally `TEMP < -1500`. -/
def sensitivity2spec (t : Int) : Int :=
  if t < 2000 then
    Int.tdiv (5 * ((t - 2000) * (t - 2000))) 4
    + (if t < -1500 then Int.tdiv (11 * ((t + 1500) * (t + 1500))) 2 else 0)
  else 0

/-- Specification-side pressure: `OFF = C[1]*65536 + (C[3]*dT)/128`,
`SENS = C[0]*32768 + (C[2]*dT)/256`, optional second-order corrections, and
`P = (D1 * SENS / 2097152 - OFF) / 32768`, all in ideal integer arithmetic. -/
def readPressureSpec (C : Coeffs) (D1 D2 : Nat) (compensation : Bool) : Int :=
  let dt := dTspec C D2
  let offset := (C 1 : Int) * 65536 + Int.tdiv ((C 3 : Int) * dt) 128
  let sensitivity := (C 0 : Int) * 32768 + Int.tdiv ((C 2 : Int) * dt) 256
  let t := tempSpec C D2
  let offset' := if compensation then offset - offset2spec t else offset
  let sensitivity' := if compensation then sensitivity - sensitivity2spec t else sensitivity
  Int.tdiv (Int.tdiv ((D1 : Int) * sensitivity') 2097152 - offset') 32768

/-- The datasheet sample coefficient set named by the specification. -/
def dsCoeffs : Coeffs := ![40127, 36924, 23317, 23282, 33464, 28312]

/-- A coefficient set driving the compensation into the deep-cold regime:
`C[4] = C[5] = 65535` with `D2 = 0` gives `dT = -16776960` and
`TEMP = -129068`. -/
def coeffsCold : Coeffs := ![0, 0, 0, 0, 65535, 65535]

/-- Observable two-wire bus interactions (Wire library calls) plus blocking
delays, in the order the driver issues them. -/
inductive Event where
  | busBegin : Event
  | beginTransmission : Nat → Event
  | write : Nat → Event
  | endTransmission : Event
  | requestFrom : Nat → Nat → Event
  | busRead : Event
  | delayMs : Nat → Event
deriving DecidableEq

/-- The bus collaborator: an arbitrary stream of reply bytes (indexed by how
many reads have happened), a cursor, and the log of issued interactions.
Quantifying over `stream` quantifies over every behavior of the bus. -/
structure Wire where
  stream : Nat → Nat
  pos : Nat
  log : List Event

/-- Embeds `Wire.begin()`. -/
def wireBegin (w : Wire) : Wire :=
  { w with log := w.log ++ [Event.busBegin] }

/-- Embeds `Wire.beginTransmission(addr)`. -/
def beginTransmission (addr : Nat) (w : Wire) : Wire :=
  { w with log := w.log ++ [Event.beginTransmission addr] }

/-- Embeds `Wire.write(b)`; the argument is a `uint8_t`. -/
def wireWrite (b : Nat) (w : Wire) : Wire :=
  { w with log := w.log ++ [Event.write (b % 256)] }

/-- Embeds `Wire.endTransmission()`. -/
def endTransmission (w : Wire) : Wire :=
  { w with log := w.log ++ [Event.endTransmission] }

/-- Embeds `Wire.requestFrom(addr, n)`. -/
def requestFrom (addr n : Nat) (w : Wire) : Wire :=
  { w with log := w.log ++ [Event.requestFrom addr n] }

/-- Embeds `Wire.read()` stored into a `uint8_t`: yields the next stream
byte (truncated to 8 bits) and advances the cursor. -/
def wireRead (w : Wire) : Nat × Wire :=
  (w.stream w.pos % 256,
   { w with pos := w.pos + 1, log := w.log ++ [Event.busRead] })

/-- Embeds `delay(ms)`. -/
def delayCall (ms : Nat) (w : Wire) : Wire :=
  { w with log := w.log ++ [Event.delayMs ms] }

/-- The driver's member variables (MS5611.h lines 37-42). -/
structure MS5611St where
  filterCoefficient : Fin 6 → Nat
  counter : Nat
  userOversamplingRate : Nat
  temperature2 : Int
  offset2 : Int
  sensitivity2 : Int

/-- Embeds `MS5611::setOversampling` (MS5611.cpp lines 44-66): the switch
updates `counter` only for the five enumerators, then `userOversamplingRate`
(a `uint8_t`) is unconditionally assigned the argument. -/
def setOversampling (osr : Nat) (st : MS5611St) : MS5611St :=
  let c :=
    if osr = 0x00 then 1
    else if osr = 0x02 then 2
    else if osr = 0x04 then 3
    else if osr = 0x06 then 5
    else if osr = 0x08 then 10
    else st.counter
  { st with counter := c, userOversamplingRate := osr % 256 }

/-- Embeds `MS5611::getOversampling` (MS5611.cpp lines 78-80). -/
def getOversampling (st : MS5611St) : Nat :=
  st.userOversamplingRate

/-- Embeds `MS5611::performReset` (MS5611.cpp lines 89-93):
write the reset command `0x1E` to device address `0x77`. -/
def performReset (w : Wire) : Wire :=
  endTransmission (wireWrite 0x1E (beginTransmission 0x77 w))

/-- Embeds `MS5611::readRegister16` (MS5611.cpp lines 269-282): write the
register address, request 2 bytes, read high and low bytes, combine as
`(high << 8) | low`. -/
def readRegister16 (reg : Nat) (w : Wire) : Nat × Wire :=
  let w1 := beginTransmission 0x77 w
  let w2 := wireWrite reg w1
  let w3 := endTransmission w2
  let w4 := requestFrom 0x77 2 w3
  let (hi, w5) := wireRead w4
  let (lo, w6) := wireRead w5
  ((hi <<< 8) ||| lo, w6)

/-- Embeds `MS5611::readRegister24` (MS5611.cpp lines 296-310): write the
register address, request 2 (sic) bytes, read three bytes, combine as
`(b0 << 16) | (b1 << 8) | b2`. -/
def readRegister24 (reg : Nat) (w : Wire) : Nat × Wire :=
  let w1 := beginTransmission 0x77 w
  let w2 := wireWrite reg w1
  let w3 := endTransmission w2
  let w4 := requestFrom 0x77 2 w3
  let (xb, w5) := wireRead w4
  let (hi, w6) := wireRead w5
  let (lo, w7) := wireRead w6
  ((xb <<< 16) ||| (hi <<< 8) ||| lo, w7)

/-- Embeds `MS5611::getCalibrationData` (MS5611.cpp lines 104-108): the loop
`for offset = 0..5: filterCoefficient[offset] = readRegister16(0xA2 + offset*2)`
unrolled, each iteration assigning one slot of the coefficient array. -/
def getCalibrationData (st : MS5611St) (w : Wire) : MS5611St × Wire :=
  let (c0, w0) := readRegister16 (0xA2 + 0 * 2) w
  let (c1, w1) := readRegister16 (0xA2 + 1 * 2) w0
  let (c2, w2) := readRegister16 (0xA2 + 2 * 2) w1
  let (c3, w3) := readRegister16 (0xA2 + 3 * 2) w2
  let (c4, w4) := readRegister16 (0xA2 + 4 * 2) w3
  let (c5, w5) := readRegister16 (0xA2 + 5 * 2) w4
  let f0 := Function.update st.filterCoefficient 0 c0
  let f1 := Function.update f0 1 c1
  let f2 := Function.update f1 2 c2
  let f3 := Function.update f2 3 c3
  let f4 := Function.update f3 4 c4
  let f5 := Function.update f4 5 c5
  ({ st with filterCoefficient := f5 }, w5)

/-- Embeds `MS5611::readRawTemperature` (MS5611.cpp lines 121-127): send
`MS5611_CONV_D2 + userOversamplingRate`, wait `counter` ms, read the 24-bit
ADC register `0x00`. -/
def readRawTemperature (st : MS5611St) (w : Wire) : Nat × Wire :=
  let w1 := beginTransmission 0x77 w
  let w2 := wireWrite (0x50 + st.userOversamplingRate) w1
  let w3 := endTransmission w2
  let w4 := delayCall st.counter w3
  readRegister24 0x00 w4

/-- Embeds `MS5611::readRawPressure` (MS5611.cpp lines 140-146): send
`MS5611_CONV_D1 + userOversamplingRate`, wait `counter` ms, read the 24-bit
ADC register `0x00`. -/
def readRawPressure (st : MS5611St) (w : Wire) : Nat × Wire :=
  let w1 := beginTransmission 0x77 w
  let w2 := wireWrite (0x40 + st.userOversamplingRate) w1
  let w3 := endTransmission w2
  let w4 := delayCall st.counter w3
  readRegister24 0x00 w4

/-- Embeds `MS5611::begin` (MS5611.cpp lines 14-26): `Wire.begin()`, reset,
set oversampling, wait 100 ms, load calibration, return `true`. -/
def beginMS (osr : Nat) (st : MS5611St) (w : Wire) : Bool × MS5611St × Wire :=
  let w1 := wireBegin w
  let w2 := performReset w1
  let st1 := setOversampling osr st
  let w3 := delayCall 100 w2
  let (st2, w4) := getCalibrationData st1 w3
  (true, st2, w4)

/-- The 24-bit value produced by `readRegister24` from stream bytes at
positions `p`, `p+1`, `p+2`. -/
def reg24val (s : Nat → Nat) (p : Nat) : Nat :=
  ((s p % 256) <<< 16) ||| ((s (p + 1) % 256) <<< 8) ||| (s (p + 2) % 256)

/-- The 16-bit value produced by `readRegister16` from stream bytes at
positions `p`, `p+1`. -/
def reg16val (s : Nat → Nat) (p : Nat) : Nat :=
  ((s p % 256) <<< 8) ||| (s (p + 1) % 256)

/-- The bus interaction trace of one `readRegister16` of register `reg`. -/
def read16Trace (reg : Nat) : List Event :=
  [Event.beginTransmission 0x77, Event.write (reg % 256), Event.endTransmission,
   Event.requestFrom 0x77 2, Event.busRead, Event.busRead]

/-- The bus interaction trace of one `readRegister24` of register `reg`. -/
def read24Trace (reg : Nat) : List Event :=
  [Event.beginTransmission 0x77, Event.write (reg % 256), Event.endTransmission,
   Event.requestFrom 0x77 2, Event.busRead, Event.busRead, Event.busRead]

/-- A concrete driver state used for counterexamples: settling delay 5 and
oversampling rate `HIGH_RES = 0x06`, as left by `setOversampling(HIGH_RES)`. -/
def stHighRes : MS5611St :=
  { filterCoefficient := ![0, 0, 0, 0, 0, 0]
    counter := 5
    userOversamplingRate := 6
    temperature2 := 0
    offset2 := 0
    sensitivity2 := 0 }

/-- A concrete bus whose stream yields 1, 2, 3, ... -/
def wCount : Wire := { stream := fun n => n + 1, pos := 0, log := [] }

/-- Embeds `MS5611::getAltitude` (MS5611.cpp lines 237-239) over the reals:
`44330 * (1 - (pressure / seaLevelPressure) ^ 0.1902949)`. -/
noncomputable def getAltitude (pressure seaLevelPressure : ℝ) : ℝ :=
  44330 * (1 - (pressure / seaLevelPressure) ^ (0.1902949 : ℝ))

/-- Embeds `MS5611::getSeaLevel` (MS5611.cpp lines 253-255) over the reals:
`pressure / (1 - altitude / 44330) ^ 5.255`. -/
noncomputable def getSeaLevel (pressure altitude : ℝ) : ℝ :=
  pressure / (1 - altitude / 44330) ^ (5.255 : ℝ)

/-- Reinterpretation as `int32_t` is the identity on values already in the
32-bit signed range. -/
theorem toInt32_eq_self (x : Int) (h1 : -2147483648 ≤ x) (h2 : x < 2147483648) :
    toInt32 x = x := by
  unfold toInt32; omega

/-- Converting to `uint32_t` and then to `int32_t` is the same as converting
straight to `int32_t`. -/
theorem toInt32_toUInt32 (x : Int) : toInt32 (toUInt32 x) = toInt32 x := by
  unfold toInt32 toUInt32; omega

/-- Every `int32_t`-reinterpreted value lies in the 32-bit signed range. -/
theorem toInt32_bounds (x : Int) :
    -2147483648 ≤ toInt32 x ∧ toInt32 x < 2147483648 := by
  unfold toInt32; omega

/-- Magnitude bound for an integer product from bounds on the factors. -/
theorem natAbs_mul_le {a b : Int} {m n : Nat} (ha : a.natAbs ≤ m) (hb : b.natAbs ≤ n) :
    (a * b).natAbs ≤ m * n := by
  rw [Int.natAbs_mul]; exact Nat.mul_le_mul ha hb

/-- Magnitude bound for a truncating division from a bound on the dividend. -/
theorem natAbs_tdiv_le {a b : Int} {m k : Nat} (h : a.natAbs ≤ m) (hb : b.natAbs = k) :
    (a.tdiv b).natAbs ≤ m / k := by
  rw [Int.natAbs_tdiv, hb]; exact Nat.div_le_div_right h

/-- For a 24-bit raw sample and a 16-bit coefficient, the `uint32_t`
computation of `dT` followed by the `int32_t` reinterpretation agrees with
the ideal `dT = D2 - C[4]*256`. -/
theorem dTcode_eq {C : Coeffs} {D2 : Nat} (hC : C 4 < 65536) (hD2 : D2 < 16777216) :
    dTcode C D2 = dTspec C D2 := by
  unfold dTcode dTspec toInt32 toUInt32
  omega

/-- The ideal `dT` of a 24-bit sample and 16-bit coefficient is below 2^24. -/
theorem dTspec_natAbs_le {C : Coeffs} {D2 : Nat} (hC : C 4 < 65536) (hD2 : D2 < 16777216) :
    (dTspec C D2).natAbs ≤ 16777216 := by
  unfold dTspec; omega

/-- For in-range inputs the `int32_t` store of the base temperature does not
wrap: the code temperature agrees with the ideal `TEMP`. -/
theorem temperatureBase_eq {C : Coeffs} {D2 : Nat} (hC4 : C 4 < 65536)
    (hC5 : C 5 < 65536) (hD2 : D2 < 16777216) :
    temperatureBase C (dTspec C D2) = tempSpec C D2 := by
  unfold temperatureBase tempSpec
  have h1 : (dTspec C D2 * (C 5 : Int)).natAbs ≤ 16777216 * 65536 :=
    natAbs_mul_le (dTspec_natAbs_le hC4 hD2) (by simp; omega)
  have h2 : (Int.tdiv (dTspec C D2 * (C 5 : Int)) 8388608).natAbs
      ≤ 16777216 * 65536 / 8388608 := natAbs_tdiv_le h1 rfl
  exact toInt32_eq_self _ (by omega) (by omega)

/-- The ideal `TEMP` of in-range inputs lies within ±133073 hundredths. -/
theorem tempSpec_natAbs_le {C : Coeffs} {D2 : Nat} (hC4 : C 4 < 65536)
    (hC5 : C 5 < 65536) (hD2 : D2 < 16777216) :
    (tempSpec C D2).natAbs ≤ 133072 := by
  unfold tempSpec
  have h1 : (dTspec C D2 * (C 5 : Int)).natAbs ≤ 16777216 * 65536 :=
    natAbs_mul_le (dTspec_natAbs_le hC4 hD2) (by simp; omega)
  have h2 : (Int.tdiv (dTspec C D2 * (C 5 : Int)) 8388608).natAbs
      ≤ 16777216 * 65536 / 8388608 := natAbs_tdiv_le h1 rfl
  omega

/-- Above -154.71 °C the 32-bit evaluation of the second-order offset
correction does not wrap, so it agrees with the ideal `OFF2`. -/
theorem offset2code_eq (t : Int) (h : -15471 ≤ t) :
    offset2code t = offset2spec t := by
  unfold offset2code offset2spec
  by_cases h2 : t < 2000
  · have hs1 : 0 ≤ (t - 2000) * (t - 2000) := mul_self_nonneg _
    have hs2 : (t - 2000) * (t - 2000) ≤ 305235841 := by nlinarith
    by_cases h3 : t < -1500
    · have hu1 : 0 ≤ (t + 1500) * (t + 1500) := mul_self_nonneg _
      have hu2 : (t + 1500) * (t + 1500) ≤ 195188841 := by nlinarith
      rw [toInt32_eq_self ((t - 2000) * (t - 2000)) (by omega) (by omega),
          toInt32_eq_self (5 * ((t - 2000) * (t - 2000))) (by omega) (by omega),
          toInt32_eq_self ((t + 1500) * (t + 1500)) (by omega) (by omega),
          toInt32_eq_self (7 * ((t + 1500) * (t + 1500))) (by omega) (by omega)]
      simp [h2, h3]
    · rw [toInt32_eq_self ((t - 2000) * (t - 2000)) (by omega) (by omega),
          toInt32_eq_self (5 * ((t - 2000) * (t - 2000))) (by omega) (by omega)]
      simp [h2, h3]
  · have h3 : ¬ t < -1500 := by omega
    simp [h2, h3]

/-- Above -154.71 °C the 32-bit evaluation of the second-order sensitivity
correction does not wrap, so it agrees with the ideal `SENS2`. -/
theorem sensitivity2code_eq (t : Int) (h : -15471 ≤ t) :
    sensitivity2code t = sensitivity2spec t := by
  unfold sensitivity2code sensitivity2spec
  by_cases h2 : t < 2000
  · have hs1 : 0 ≤ (t - 2000) * (t - 2000) := mul_self_nonneg _
    have hs2 : (t - 2000) * (t - 2000) ≤ 305235841 := by nlinarith
    by_cases h3 : t < -1500
    · have hu1 : 0 ≤ (t + 1500) * (t + 1500) := mul_self_nonneg _
      have hu2 : (t + 1500) * (t + 1500) ≤ 195188841 := by nlinarith
      rw [toInt32_eq_self ((t - 2000) * (t - 2000)) (by omega) (by omega),
          toInt32_eq_self (5 * ((t - 2000) * (t - 2000))) (by omega) (by omega),
          toInt32_eq_self ((t + 1500) * (t + 1500)) (by omega) (by omega),
          toInt32_eq_self (11 * ((t + 1500) * (t + 1500))) (by omega) (by omega)]
      simp [h2, h3]
    · rw [toInt32_eq_self ((t - 2000) * (t - 2000)) (by omega) (by omega),
          toInt32_eq_self (5 * ((t - 2000) * (t - 2000))) (by omega) (by omega)]
      simp [h2, h3]
  · have h3 : ¬ t < -1500 := by omega
    simp [h2, h3]

/-- The code's second-order offset correction is bounded in magnitude (its
components are 32-bit values), for every temperature. -/
theorem offset2code_natAbs_le (t : Int) : (offset2code t).natAbs ≤ 3221225472 := by
  unfold offset2code
  have h1 := toInt32_bounds (5 * toInt32 ((t - 2000) * (t - 2000)))
  have h2 := toInt32_bounds (7 * toInt32 ((t + 1500) * (t + 1500)))
  have h1b : (toInt32 (5 * toInt32 ((t - 2000) * (t - 2000)))).natAbs ≤ 2147483648 := by
    omega
  have h3 : (Int.tdiv (toInt32 (5 * toInt32 ((t - 2000) * (t - 2000)))) 2).natAbs
      ≤ 2147483648 / 2 := natAbs_tdiv_le h1b rfl
  have h4 := Int.natAbs_add_le
    (Int.tdiv (toInt32 (5 * toInt32 ((t - 2000) * (t - 2000)))) 2)
    (toInt32 (7 * toInt32 ((t + 1500) * (t + 1500))))
  by_cases hA : t < 2000
  · by_cases hB : t < -1500
    · rw [if_pos hA, if_pos hB]; omega
    · rw [if_pos hA, if_neg hB]; omega
  · have hB : ¬ t < -1500 := by omega
    rw [if_neg hA, if_neg hB]; omega

/-- The code's second-order sensitivity correction is bounded in magnitude
(its components are 32-bit values), for every temperature. -/
theorem sensitivity2code_natAbs_le (t : Int) :
    (sensitivity2code t).natAbs ≤ 1610612736 := by
  unfold sensitivity2code
  have h1 := toInt32_bounds (5 * toInt32 ((t - 2000) * (t - 2000)))
  have h2 := toInt32_bounds (11 * toInt32 ((t + 1500) * (t + 1500)))
  have h1b : (toInt32 (5 * toInt32 ((t - 2000) * (t - 2000)))).natAbs ≤ 2147483648 := by
    omega
  have h2b : (toInt32 (11 * toInt32 ((t + 1500) * (t + 1500)))).natAbs ≤ 2147483648 := by
    omega
  have h3 : (Int.tdiv (toInt32 (5 * toInt32 ((t - 2000) * (t - 2000)))) 4).natAbs
      ≤ 2147483648 / 4 := natAbs_tdiv_le h1b rfl
  have h4 : (Int.tdiv (toInt32 (11 * toInt32 ((t + 1500) * (t + 1500)))) 2).natAbs
      ≤ 2147483648 / 2 := natAbs_tdiv_le h2b rfl
  have h5 := Int.natAbs_add_le
    (Int.tdiv (toInt32 (5 * toInt32 ((t - 2000) * (t - 2000)))) 4)
    (Int.tdiv (toInt32 (11 * toInt32 ((t + 1500) * (t + 1500)))) 2)
  by_cases hA : t < 2000
  · by_cases hB : t < -1500
    · rw [if_pos hA, if_pos hB]; omega
    · rw [if_pos hA, if_neg hB]; omega
  · have hB : ¬ t < -1500 := by omega
    rw [if_neg hA, if_neg hB]; omega

/-- `OFF` is bounded by 12884901888 for in-range inputs. -/
theorem offsetCode_natAbs_le {C : Coeffs} {dt : Int} (hC1 : C 1 < 65536)
    (hC3 : C 3 < 65536) (hdt : dt.natAbs ≤ 16777216) :
    (offsetCode C dt).natAbs ≤ 12884901888 := by
  unfold offsetCode
  have h1 : ((C 1 : Int) * 65536).natAbs ≤ 65536 * 65536 :=
    natAbs_mul_le (by simp; omega) (by simp)
  have h2 : ((C 3 : Int) * dt).natAbs ≤ 65536 * 16777216 :=
    natAbs_mul_le (by simp; omega) hdt
  have h3 : (Int.tdiv ((C 3 : Int) * dt) 128).natAbs ≤ 65536 * 16777216 / 128 :=
    natAbs_tdiv_le h2 rfl
  have h4 := Int.natAbs_add_le ((C 1 : Int) * 65536) (Int.tdiv ((C 3 : Int) * dt) 128)
  omega

/-- `SENS` is bounded by 6442450944 for in-range inputs. -/
theorem sensitivityCode_natAbs_le {C : Coeffs} {dt : Int} (hC0 : C 0 < 65536)
    (hC2 : C 2 < 65536) (hdt : dt.natAbs ≤ 16777216) :
    (sensitivityCode C dt).natAbs ≤ 6442450944 := by
  unfold sensitivityCode
  have h1 : ((C 0 : Int) * 32768).natAbs ≤ 65536 * 32768 :=
    natAbs_mul_le (by simp; omega) (by simp)
  have h2 : ((C 2 : Int) * dt).natAbs ≤ 65536 * 16777216 :=
    natAbs_mul_le (by simp; omega) hdt
  have h3 : (Int.tdiv ((C 2 : Int) * dt) 256).natAbs ≤ 65536 * 16777216 / 256 :=
    natAbs_tdiv_le h2 rfl
  have h4 := Int.natAbs_add_le ((C 0 : Int) * 32768) (Int.tdiv ((C 2 : Int) * dt) 256)
  omega

/-- The final pressure expression is bounded well inside the 32-bit range
whenever the adjusted `SENS` and `OFF` are bounded as established above. -/
theorem pressureExpr_natAbs_le {D1 : Nat} {s o : Int} (hD1 : D1 < 16777216)
    (hs : s.natAbs ≤ 8053063680) (ho : o.natAbs ≤ 16106127360) :
    (Int.tdiv (Int.tdiv ((D1 : Int) * s) 2097152 - o) 32768).natAbs ≤ 2457600 := by
  have hD1b : ((D1 : Int)).natAbs ≤ 16777216 := by simp; omega
  have h1 : ((D1 : Int) * s).natAbs ≤ 16777216 * 8053063680 := natAbs_mul_le hD1b hs
  have h2 : (Int.tdiv ((D1 : Int) * s) 2097152).natAbs
      ≤ 16777216 * 8053063680 / 2097152 := natAbs_tdiv_le h1 rfl
  have h3 := Int.natAbs_sub_le (Int.tdiv ((D1 : Int) * s) 2097152) o
  have h4 : (Int.tdiv ((D1 : Int) * s) 2097152 - o).natAbs ≤ 80530636800 := by omega
  have h5 : (Int.tdiv (Int.tdiv ((D1 : Int) * s) 2097152 - o) 32768).natAbs
      ≤ 80530636800 / 32768 := natAbs_tdiv_le h4 rfl
  omega

/-- C1: at coefficients `[40127, 36924, 23317, 23282, 33464, 28312]` and raw
sample `D2 = 8466784` (so `dT = -100000`, base `TEMP = 1663 < 2000`), the
compensated path of `readTemperature` returns 1663 hundredths (16.63 °C),
identical to the uncompensated result, whereas the claimed formula subtracts
`dT*dT / 2^31 = 4` and yields 1659 (16.59 °C): the code's second-order branch
tests the just-zeroed `temperature2` field instead of `temperature`, and its
32-bit `dT*dT` product divided in floating point always truncates to zero. -/
theorem readTemperature_secondOrder_dead :
    readTemperatureHund dsCoeffs 8466784 true = 1663 ∧
    readTemperatureSpecHund dsCoeffs 8466784 true = 1659 ∧
    readTemperatureHund dsCoeffs 8466784 true = readTemperatureHund dsCoeffs 8466784 false := by
  decide

/-- C2 counterexample: at `C = [0,0,0,0,65535,65535]`, `D1 = 0`, `D2 = 0`
with compensation requested, the recomputed `TEMP = -129068` makes the
squared second-order terms wrap in 32-bit arithmetic, so `readPressure`
returns -62609 while the claimed ideal formulas give 4787054. -/
theorem readPressure_wrap_counterexample :
    tempSpec coeffsCold 0 = -129068 ∧
    readPressureCode coeffsCold 0 0 true = -62609 ∧
    readPressureSpec coeffsCold 0 0 true = 4787054 ∧
    readPressureCode coeffsCold 0 0 true ≠ readPressureSpec coeffsCold 0 0 true := by
  decide

/-- C2 amended: for every 16-bit coefficient set and 24-bit raw samples,
`readPressure` computes `dT = D2 - C[4]*256`, `OFF = C[1]*65536 +
(C[3]*dT)/128`, `SENS = C[0]*32768 + (C[2]*dT)/256`, recomputes `TEMP` when
compensation is requested and applies the second-order corrections exactly
as claimed, returning `P = (D1*SENS/2097152 - OFF)/32768` — provided the
recomputed `TEMP` is at least -15471 (≈ -154.7 °C); below that the squared
correction terms, which the code evaluates in 32-bit arithmetic, wrap and
diverge from the claimed formulas. -/
theorem readPressure_matches_spec (C : Coeffs) (D1 D2 : Nat) (comp : Bool)
    (hC : ∀ i, C i < 65536) (hD1 : D1 < 16777216) (hD2 : D2 < 16777216)
    (hT : -15471 ≤ tempSpec C D2) :
    readPressureCode C D1 D2 comp = readPressureSpec C D1 D2 comp := by
  have hdT : dTcode C D2 = dTspec C D2 := dTcode_eq (hC 4) hD2
  have htb : temperatureBase C (dTspec C D2) = tempSpec C D2 :=
    temperatureBase_eq (hC 4) (hC 5) hD2
  have hdtb : (dTspec C D2).natAbs ≤ 16777216 := dTspec_natAbs_le (hC 4) hD2
  have hoffb : (offsetCode C (dTspec C D2)).natAbs ≤ 12884901888 :=
    offsetCode_natAbs_le (hC 1) (hC 3) hdtb
  have hsensb : (sensitivityCode C (dTspec C D2)).natAbs ≤ 6442450944 :=
    sensitivityCode_natAbs_le (hC 0) (hC 2) hdtb
  have hoff2eq : offset2code (tempSpec C D2) = offset2spec (tempSpec C D2) :=
    offset2code_eq _ hT
  have hsens2eq : sensitivity2code (tempSpec C D2) = sensitivity2spec (tempSpec C D2) :=
    sensitivity2code_eq _ hT
  have hoff2b : (offset2spec (tempSpec C D2)).natAbs ≤ 3221225472 := by
    rw [← hoff2eq]; exact offset2code_natAbs_le _
  have hsens2b : (sensitivity2spec (tempSpec C D2)).natAbs ≤ 1610612736 := by
    rw [← hsens2eq]; exact sensitivity2code_natAbs_le _
  rcases comp with _ | _
  · simp only [readPressureCode, readPressureSpec, Bool.false_eq_true, if_false]
    rw [hdT, toInt32_toUInt32]
    have hs' : (sensitivityCode C (dTspec C D2)).natAbs ≤ 8053063680 := by omega
    have ho' : (offsetCode C (dTspec C D2)).natAbs ≤ 16106127360 := by omega
    have hP := pressureExpr_natAbs_le hD1 hs' ho'
    exact toInt32_eq_self _ (by omega) (by omega)
  · simp only [readPressureCode, readPressureSpec, if_true]
    rw [hdT, htb, hoff2eq, hsens2eq, toInt32_toUInt32]
    have hsub1 := Int.natAbs_sub_le (sensitivityCode C (dTspec C D2))
      (sensitivity2spec (tempSpec C D2))
    have hsub2 := Int.natAbs_sub_le (offsetCode C (dTspec C D2))
      (offset2spec (tempSpec C D2))
    have hs' : (sensitivityCode C (dTspec C D2) - sensitivity2spec (tempSpec C D2)).natAbs
        ≤ 8053063680 := by omega
    have ho' : (offsetCode C (dTspec C D2) - offset2spec (tempSpec C D2)).natAbs
        ≤ 16106127360 := by omega
    have hP := pressureExpr_natAbs_le hD1 hs' ho'
    exact toInt32_eq_self _ (by omega) (by omega)

/-- C2 witness: the amended statement holds at the datasheet coefficients
and raw samples with compensation requested. -/
theorem readPressure_matches_spec_witness :
    (∀ i, dsCoeffs i < 65536) ∧ 9085466 < 16777216 ∧ 8569150 < 16777216 ∧
    -15471 ≤ tempSpec dsCoeffs 8569150 ∧
    readPressureCode dsCoeffs 9085466 8569150 true
      = readPressureSpec dsCoeffs 9085466 8569150 true :=
  ⟨by decide, by decide, by decide, by decide,
   readPressure_matches_spec dsCoeffs 9085466 8569150 true
     (by decide) (by decide) (by decide) (by decide)⟩

/-- C3 counterexample: with the datasheet coefficients and the raw
temperature sample `D2 = 9963778` stated by the claim, the uncompensated
temperature is 6714 hundredths (67.14 °C), not approximately 20.01 °C (off
by far more than 1 °C), and the uncompensated pressure at `D1 = 9085466` is
109061 Pa, more than 1000 Pa away from the claimed ≈100009 Pa. -/
theorem datasheet_example_wrong_sample :
    readTemperatureHund dsCoeffs 9963778 false = 6714 ∧
    readPressureCode dsCoeffs 9085466 9963778 false = 109061 ∧
    ¬ (readTemperatureHund dsCoeffs 9963778 false - 2001).natAbs ≤ 100 ∧
    ¬ (readPressureCode dsCoeffs 9085466 9963778 false - 100009).natAbs ≤ 1000 := by
  decide

/-- C3 amended: with the datasheet coefficients and the datasheet raw
samples `D2 = 8569150`, `D1 = 9085466`, the uncompensated temperature is
exactly 2007 hundredths (20.07 °C) and the uncompensated pressure is exactly
100009 Pa, matching the datasheet worked example. -/
theorem datasheet_example_correct :
    readTemperatureHund dsCoeffs 8569150 false = 2007 ∧
    readTemperature dsCoeffs 8569150 false = 2007 / 100 ∧
    readPressureCode dsCoeffs 9085466 8569150 false = 100009 := by
  refine ⟨by decide, ?_, by decide⟩
  show (readTemperatureHund dsCoeffs 8569150 false : ℚ) / 100 = 2007 / 100
  norm_num [show readTemperatureHund dsCoeffs 8569150 false = 2007 from by decide]

/-- C4 counterexample: the raw sample `D2 = 8466784` with the datasheet
coefficients gives `dT = -100000`, whose square is evaluated as a wrapping
32-bit product: it differs from the 64-bit square, and the resulting
second-order temperature term (0) differs from the 64-bit evaluation (4). -/
theorem square_term_32bit_wraps :
    dTcode dsCoeffs 8466784 = -100000 ∧
    toInt32 ((-100000 : Int) * (-100000)) ≠ (-100000 : Int) * (-100000) ∧
    temperature2code (-100000) ≠ Int.tdiv ((-100000 : Int) * (-100000)) 2147483648 := by
  decide

/-- C4 amended: for 24-bit raw samples and 16-bit coefficients, the
64-bit-evaluated intermediates of `readPressure` — the `dT*C[5]` product,
`OFF`, `SENS`, the widened second-order corrections, the `D1*SENS` product —
all stay far inside the signed 64-bit range (no 64-bit overflow is
possible), and the returned pressure is a 32-bit value; the 32-bit-evaluated
intermediates (`dT`, and the squared second-order terms, which wrap — see
the counterexample) are bounded by their 32-bit ranges. -/
theorem int64_intermediates_bounded (C : Coeffs) (D1 D2 : Nat) (comp : Bool)
    (hC : ∀ i, C i < 65536) (hD1 : D1 < 16777216) (hD2 : D2 < 16777216) :
    (dTcode C D2).natAbs ≤ 16777216 ∧
    (dTcode C D2 * (C 5 : Int)).natAbs < 9223372036854775808 ∧
    (offsetCode C (dTcode C D2)).natAbs < 9223372036854775808 ∧
    (sensitivityCode C (dTcode C D2)).natAbs < 9223372036854775808 ∧
    (offset2code (temperatureBase C (dTcode C D2))).natAbs < 9223372036854775808 ∧
    (sensitivity2code (temperatureBase C (dTcode C D2))).natAbs < 9223372036854775808 ∧
    ((D1 : Int) * (if comp
        then sensitivityCode C (dTcode C D2)
             - sensitivity2code (temperatureBase C (dTcode C D2))
        else sensitivityCode C (dTcode C D2))).natAbs < 9223372036854775808 ∧
    (readPressureCode C D1 D2 comp).natAbs ≤ 2147483648 := by
  have hdtb : (dTcode C D2).natAbs ≤ 16777216 := by
    rw [dTcode_eq (hC 4) hD2]; exact dTspec_natAbs_le (hC 4) hD2
  have hC5 : ((C 5 : Int)).natAbs ≤ 65536 := by have := hC 5; simp; omega
  have hprod : (dTcode C D2 * (C 5 : Int)).natAbs ≤ 16777216 * 65536 :=
    natAbs_mul_le hdtb hC5
  have hoffb : (offsetCode C (dTcode C D2)).natAbs ≤ 12884901888 :=
    offsetCode_natAbs_le (hC 1) (hC 3) hdtb
  have hsensb : (sensitivityCode C (dTcode C D2)).natAbs ≤ 6442450944 :=
    sensitivityCode_natAbs_le (hC 0) (hC 2) hdtb
  have ho2b := offset2code_natAbs_le (temperatureBase C (dTcode C D2))
  have hs2b := sensitivity2code_natAbs_le (temperatureBase C (dTcode C D2))
  have hD1b : ((D1 : Int)).natAbs ≤ 16777216 := by simp; omega
  rcases comp with _ | _
  · have hm : ((D1 : Int) * sensitivityCode C (dTcode C D2)).natAbs
        ≤ 16777216 * 6442450944 := natAbs_mul_le hD1b hsensb
    have hfin := toInt32_bounds (toUInt32 (Int.tdiv (Int.tdiv
      ((D1 : Int) * sensitivityCode C (dTcode C D2)) 2097152
      - offsetCode C (dTcode C D2)) 32768))
    simp only [readPressureCode, Bool.false_eq_true, if_false]
    exact ⟨hdtb, by omega, by omega, by omega, by omega, by omega, by omega, by omega⟩
  · have hsub : (sensitivityCode C (dTcode C D2)
        - sensitivity2code (temperatureBase C (dTcode C D2))).natAbs ≤ 8053063680 := by
      have := Int.natAbs_sub_le (sensitivityCode C (dTcode C D2))
        (sensitivity2code (temperatureBase C (dTcode C D2)))
      omega
    have hm : ((D1 : Int) * (sensitivityCode C (dTcode C D2)
        - sensitivity2code (temperatureBase C (dTcode C D2)))).natAbs
        ≤ 16777216 * 8053063680 := natAbs_mul_le hD1b hsub
    have hfin := toInt32_bounds (toUInt32 (Int.tdiv (Int.tdiv
      ((D1 : Int) * (sensitivityCode C (dTcode C D2)
        - sensitivity2code (temperatureBase C (dTcode C D2)))) 2097152
      - (offsetCode C (dTcode C D2)
        - offset2code (temperatureBase C (dTcode C D2)))) 32768))
    simp only [readPressureCode, if_true]
    exact ⟨hdtb, by omega, by omega, by omega, by omega, by omega, by omega, by omega⟩

/-- C4 witness: the bound statement holds at the datasheet coefficients and
the specification's raw samples with compensation requested. -/
theorem int64_intermediates_bounded_witness :
    (∀ i, dsCoeffs i < 65536) ∧ 9085466 < 16777216 ∧ 9963778 < 16777216 ∧
    ((dTcode dsCoeffs 9963778).natAbs ≤ 16777216 ∧
     (dTcode dsCoeffs 9963778 * (dsCoeffs 5 : Int)).natAbs < 9223372036854775808 ∧
     (offsetCode dsCoeffs (dTcode dsCoeffs 9963778)).natAbs < 9223372036854775808 ∧
     (sensitivityCode dsCoeffs (dTcode dsCoeffs 9963778)).natAbs < 9223372036854775808 ∧
     (offset2code (temperatureBase dsCoeffs (dTcode dsCoeffs 9963778))).natAbs
       < 9223372036854775808 ∧
     (sensitivity2code (temperatureBase dsCoeffs (dTcode dsCoeffs 9963778))).natAbs
       < 9223372036854775808 ∧
     ((9085466 : Int) * (if true
         then sensitivityCode dsCoeffs (dTcode dsCoeffs 9963778)
              - sensitivity2code (temperatureBase dsCoeffs (dTcode dsCoeffs 9963778))
         else sensitivityCode dsCoeffs (dTcode dsCoeffs 9963778))).natAbs
       < 9223372036854775808 ∧
     (readPressureCode dsCoeffs 9085466 9963778 true).natAbs ≤ 2147483648) :=
  ⟨by decide, by decide, by decide,
   int64_intermediates_bounded dsCoeffs 9085466 9963778 true
     (by decide) (by decide) (by decide)⟩

/-- C5: `readRegister24` issues the register-address write and combines the
three bytes it reads as `(b0 << 16) | (b1 << 8) | b2`, but its bus request
asks for only 2 bytes, never 3 — contradicting both the claim and the
function's own documentation ("it requests 3 bytes of data"). -/
theorem readRegister24_requests_two_bytes (reg : Nat) (w : Wire) :
    (readRegister24 reg w).1 = reg24val w.stream w.pos ∧
    (readRegister24 reg w).2.log = w.log ++ read24Trace reg ∧
    Event.requestFrom 0x77 2 ∈ read24Trace reg ∧
    Event.requestFrom 0x77 3 ∉ read24Trace reg := by
  refine ⟨rfl, ?_, ?_, ?_⟩ <;>
    simp [readRegister24, beginTransmission, wireWrite, endTransmission,
      requestFrom, wireRead, read24Trace]

/-- C6: `getCalibrationData` stores, for each offset `0..5`, the 16-bit
register read of PROM address `0xA2 + 2*offset` into coefficient slot
`offset` (the i-th read consumes stream bytes `2i` and `2i+1`), overwrites
all six coefficients, leaves every other member variable unchanged, and its
bus trace is exactly six consecutive 16-bit reads at `0xA2, 0xA4, ..., 0xAC`.
It is a total function with no failure path. -/
theorem getCalibrationData_populates_six (st : MS5611St) (w : Wire) :
    (∀ i : Fin 6, (getCalibrationData st w).1.filterCoefficient i
        = reg16val w.stream (w.pos + 2 * i.val)) ∧
    (getCalibrationData st w).1.counter = st.counter ∧
    (getCalibrationData st w).1.userOversamplingRate = st.userOversamplingRate ∧
    (getCalibrationData st w).1.temperature2 = st.temperature2 ∧
    (getCalibrationData st w).1.offset2 = st.offset2 ∧
    (getCalibrationData st w).1.sensitivity2 = st.sensitivity2 ∧
    (getCalibrationData st w).2.log = w.log ++
      (read16Trace 0xA2 ++ read16Trace 0xA4 ++ read16Trace 0xA6 ++
       read16Trace 0xA8 ++ read16Trace 0xAA ++ read16Trace 0xAC) ∧
    (getCalibrationData st w).2.pos = w.pos + 12 := by
  refine ⟨?_, rfl, rfl, rfl, rfl, rfl, ?_, rfl⟩
  · intro i
    fin_cases i <;>
      simp [getCalibrationData, readRegister16, beginTransmission, wireWrite,
        endTransmission, requestFrom, wireRead, reg16val, Function.update]
  · simp [getCalibrationData, readRegister16, beginTransmission, wireWrite,
      endTransmission, requestFrom, wireRead, read16Trace]

/-- C7 counterexample: calling `setOversampling` with the non-enumerator
value 3 from a `HIGH_RES` configuration leaves the settling delay `counter`
unchanged but overwrites the stored rate: `getOversampling` now returns 3
instead of 6, and a subsequent raw measurement issues a different
conversion command, so prior settings are not left in effect. -/
theorem setOversampling_invalid_updates_rate :
    (setOversampling 3 stHighRes).counter = stHighRes.counter ∧
    getOversampling (setOversampling 3 stHighRes) = 3 ∧
    getOversampling (setOversampling 3 stHighRes) ≠ getOversampling stHighRes ∧
    (readRawTemperature (setOversampling 3 stHighRes) wCount).2.log ≠
      (readRawTemperature stHighRes wCount).2.log := by
  decide

/-- C7 amended: for every value that is not one of the five oversampling
enumerators, `setOversampling` leaves the settling delay `counter` unchanged
(the switch falls through), but it still unconditionally overwrites
`userOversamplingRate`, so `getOversampling` and the conversion commands of
subsequent measurements use the new value. -/
theorem setOversampling_invalid_behavior (osr : Nat) (st : MS5611St)
    (h : osr ≠ 0 ∧ osr ≠ 2 ∧ osr ≠ 4 ∧ osr ≠ 6 ∧ osr ≠ 8) :
    (setOversampling osr st).counter = st.counter ∧
    getOversampling (setOversampling osr st) = osr % 256 := by
  obtain ⟨h0, h2, h4, h6, h8⟩ := h
  simp [setOversampling, getOversampling, h0, h2, h4, h6, h8]

/-- C7 witness: the amended statement instantiated at the invalid value 3. -/
theorem setOversampling_invalid_behavior_witness :
    (3 ≠ 0 ∧ 3 ≠ 2 ∧ 3 ≠ 4 ∧ 3 ≠ 6 ∧ 3 ≠ 8) ∧
    ((setOversampling 3 stHighRes).counter = stHighRes.counter ∧
     getOversampling (setOversampling 3 stHighRes) = 3 % 256) :=
  ⟨by decide, setOversampling_invalid_behavior 3 stHighRes (by decide)⟩

/-- C8: after configuring any of the five oversampling enumerators, both raw
measurements follow the same protocol: conversion-start command byte equal to
the kind-specific base (`0x50` for temperature, `0x40` for pressure) plus the
configured raw code, then a kind-independent delay equal to the setting's
settling time (`counter`), then a read of the 24-bit ADC register `0x00`
whose value is returned; and the five settling delays are strictly
increasing from `ULTRA_LOW_POWER` (0x00) to `ULTRA_HIGH_RES` (0x08). -/
theorem rawMeasurement_protocol (osr : Nat) (st : MS5611St) (w : Wire)
    (h : osr = 0 ∨ osr = 2 ∨ osr = 4 ∨ osr = 6 ∨ osr = 8) :
    (readRawTemperature (setOversampling osr st) w).1 = reg24val w.stream w.pos ∧
    (readRawTemperature (setOversampling osr st) w).2.log =
      w.log ++ [Event.beginTransmission 0x77, Event.write (0x50 + osr),
                Event.endTransmission, Event.delayMs (setOversampling osr st).counter]
            ++ read24Trace 0x00 ∧
    (readRawPressure (setOversampling osr st) w).1 = reg24val w.stream w.pos ∧
    (readRawPressure (setOversampling osr st) w).2.log =
      w.log ++ [Event.beginTransmission 0x77, Event.write (0x40 + osr),
                Event.endTransmission, Event.delayMs (setOversampling osr st).counter]
            ++ read24Trace 0x00 ∧
    (setOversampling 0 st).counter < (setOversampling 2 st).counter ∧
    (setOversampling 2 st).counter < (setOversampling 4 st).counter ∧
    (setOversampling 4 st).counter < (setOversampling 6 st).counter ∧
    (setOversampling 6 st).counter < (setOversampling 8 st).counter := by
  rcases h with rfl | rfl | rfl | rfl | rfl <;>
    refine ⟨?_, ?_, ?_, ?_, ?_, ?_, ?_, ?_⟩ <;>
      simp [readRawTemperature, readRawPressure, readRegister24, setOversampling,
        beginTransmission, wireWrite, endTransmission, requestFrom, wireRead,
        delayCall, read24Trace, reg24val]

/-- C8 witness: the protocol statement instantiated at `ULTRA_HIGH_RES`
(raw code 0x08) on the concrete state `stHighRes` and bus `wCount`. -/
theorem rawMeasurement_protocol_witness :
    ((8 : Nat) = 0 ∨ (8 : Nat) = 2 ∨ (8 : Nat) = 4 ∨ (8 : Nat) = 6 ∨ (8 : Nat) = 8) ∧
    ((readRawTemperature (setOversampling 8 stHighRes) wCount).1 =
        reg24val wCount.stream wCount.pos ∧
     (readRawTemperature (setOversampling 8 stHighRes) wCount).2.log =
       wCount.log ++ [Event.beginTransmission 0x77, Event.write (0x50 + 8),
                 Event.endTransmission, Event.delayMs (setOversampling 8 stHighRes).counter]
             ++ read24Trace 0x00 ∧
     (readRawPressure (setOversampling 8 stHighRes) wCount).1 =
        reg24val wCount.stream wCount.pos ∧
     (readRawPressure (setOversampling 8 stHighRes) wCount).2.log =
       wCount.log ++ [Event.beginTransmission 0x77, Event.write (0x40 + 8),
                 Event.endTransmission, Event.delayMs (setOversampling 8 stHighRes).counter]
             ++ read24Trace 0x00 ∧
     (setOversampling 0 stHighRes).counter < (setOversampling 2 stHighRes).counter ∧
     (setOversampling 2 stHighRes).counter < (setOversampling 4 stHighRes).counter ∧
     (setOversampling 4 stHighRes).counter < (setOversampling 6 stHighRes).counter ∧
     (setOversampling 6 stHighRes).counter < (setOversampling 8 stHighRes).counter) :=
  ⟨by decide, rawMeasurement_protocol 8 stHighRes wCount (by decide)⟩

/-- C10: `begin` returns `true` for every oversampling argument, every prior
driver state and every behavior of the bus: initialization has no observable
failure path. -/
theorem begin_always_true (osr : Nat) (st : MS5611St) (w : Wire) :
    (beginMS osr st w).1 = true := rfl

/-- Key numeric fact for the altitude round trip: since
`1 - 0.1902949 * 5.255 = 3005e-10`, the residual factor base satisfies
`2 ^ 3005e-10 ≤ 1 + 1e-6`. -/
theorem two_rpow_small_le : (2:ℝ) ^ ((3005:ℝ) / 10000000000) ≤ 1 + 1 / 1000000 := by
  have h2 : (0:ℝ) ≤ 2 := by norm_num
  have hb : (0:ℝ) ≤ 1 + 1/1000000 := by norm_num
  have hN : ((2:ℝ) ^ ((3005:ℝ)/10000000000)) ^ (10000000000 : ℕ) = 2 ^ (3005 : ℕ) := by
    rw [← Real.rpow_natCast ((2:ℝ) ^ ((3005:ℝ)/10000000000)) 10000000000,
        ← Real.rpow_mul h2]
    rw [show ((3005:ℝ)/10000000000) * ((10000000000:ℕ):ℝ) = ((3005:ℕ):ℝ) by
      push_cast; ring]
    exact Real.rpow_natCast 2 3005
  have hbern : (1.5:ℝ) ≤ (1 + 1/1000000) ^ (500000 : ℕ) := by
    have h := one_add_mul_le_pow (by norm_num : (-2:ℝ) ≤ 1/1000000) 500000
    have e : (1:ℝ) + (500000 : ℕ) * (1/1000000 : ℝ) = 1.5 := by push_cast; norm_num
    rw [e] at h
    exact h
  have hmid : ((1.5:ℝ)) ^ (20000 : ℕ) ≤ ((1 + 1/1000000) ^ (500000:ℕ)) ^ (20000:ℕ) :=
    pow_le_pow_left₀ (by norm_num) hbern 20000
  have hmul : (500000 : ℕ) * 20000 = 10000000000 := by norm_num
  rw [← pow_mul, hmul] at hmid
  have hfin : (2:ℝ) ^ (3005:ℕ) ≤ (1.5:ℝ) ^ (20000:ℕ) := by
    rw [show (1.5:ℝ) = 3/2 by norm_num, div_pow, le_div_iff₀ (by positivity), ← pow_add]
    have hnat : (2:ℕ) ^ 23005 ≤ 3 ^ 20000 := by
      have h1 : (2:ℕ) ^ 19 ≤ 3 ^ 12 := by norm_num
      have h2 : ((2:ℕ) ^ 19) ^ 1666 ≤ ((3:ℕ) ^ 12) ^ 1666 := Nat.pow_le_pow_left h1 1666
      rw [← pow_mul, ← pow_mul] at h2
      calc (2:ℕ) ^ 23005 ≤ 2 ^ (19 * 1666) :=
        Nat.pow_le_pow_right (by norm_num) (by norm_num)
      _ ≤ 3 ^ (12 * 1666) := h2
      _ ≤ 3 ^ 20000 := Nat.pow_le_pow_right (by norm_num) (by norm_num)
    exact_mod_cast hnat
  have hpow : ((2:ℝ) ^ ((3005:ℝ)/10000000000)) ^ (10000000000:ℕ)
      ≤ (1 + 1/1000000) ^ (10000000000:ℕ) := by
    rw [hN]; exact le_trans hfin hmid
  exact le_of_pow_le_pow_left₀ (by norm_num) hb hpow

/-- C9 counterexample: the exponents `0.1902949` and `5.255` are not exact
reciprocals (their product is `0.9999996995`), so the round trip is
`P0 * (p/P0) ^ 3005e-10`, not `P0`: at `p = 2^10000000` and `P0 = 1` the
round trip returns at least `8`, eight times the claimed value — the
round-trip identity fails for some positive `p`, `P0`. -/
theorem seaLevel_roundtrip_diverges :
    8 ≤ getSeaLevel ((2:ℝ) ^ (10000000 : ℕ)) (getAltitude ((2:ℝ) ^ (10000000 : ℕ)) 1) := by
  have h2 : (0:ℝ) ≤ 2 := by norm_num
  have hp : ((2:ℝ) ^ (10000000 : ℕ)) = (2:ℝ) ^ ((10000000 : ℕ) : ℝ) :=
    (Real.rpow_natCast 2 10000000).symm
  unfold getAltitude getSeaLevel
  rw [div_one, hp, ← Real.rpow_mul h2]
  have e1 : ((10000000 : ℕ) : ℝ) * (0.1902949 : ℝ) = (1902949 : ℝ) := by
    push_cast; norm_num
  rw [e1]
  have e2 : 1 - 44330 * (1 - (2:ℝ) ^ (1902949:ℝ)) / 44330 = (2:ℝ) ^ (1902949:ℝ) := by
    field_simp
  rw [e2, ← Real.rpow_mul h2]
  have e3 : (1902949 : ℝ) * (5.255 : ℝ) = 9999996.995 := by norm_num
  rw [e3, ← Real.rpow_sub (by norm_num : (0:ℝ) < 2)]
  have e4 : ((10000000 : ℕ) : ℝ) - (9999996.995 : ℝ) = 3.005 := by push_cast; norm_num
  rw [e4]
  have e5 : (8:ℝ) = (2:ℝ) ^ ((3:ℕ):ℝ) := by
    rw [Real.rpow_natCast]; norm_num
  rw [e5]
  exact Real.rpow_le_rpow_left_iff (by norm_num : (1:ℝ) < 2) |>.mpr (by push_cast; norm_num)

/-- C9 amended: in the real-valued model, `getAltitude P0 P0 = 0` holds
exactly for every positive reference pressure; and because
`0.1902949 * 5.255 = 0.9999996995` the round trip equals
`P0 * (p/P0) ^ 3005e-10`, which is within relative error `1e-6` of `P0`
whenever `P0/2 ≤ p ≤ 2*P0` (the physically sensible altimetry range), though
not equal to `P0` for extreme pressure ratios. -/
theorem altitude_roundtrip_props :
    (∀ s : ℝ, 0 < s → getAltitude s s = 0) ∧
    (∀ p q : ℝ, 0 < p → 0 < q → q / 2 ≤ p → p ≤ 2 * q →
      |getSeaLevel p (getAltitude p q) - q| ≤ q * (1 / 1000000)) := by
  constructor
  · intro s hs
    unfold getAltitude
    rw [div_self (ne_of_gt hs), Real.one_rpow]
    ring
  · intro p q hp hq h1 h2
    have hr0 : 0 < p / q := div_pos hp hq
    have hr1 : 1 / 2 ≤ p / q := by rw [le_div_iff₀ hq]; linarith
    have hr2 : p / q ≤ 2 := by rw [div_le_iff₀ hq]; linarith
    have hε : (0:ℝ) ≤ 1 - 0.1902949 * 5.255 := by norm_num
    have key : getSeaLevel p (getAltitude p q)
        = q * (p / q) ^ ((1:ℝ) - 0.1902949 * 5.255) := by
      unfold getSeaLevel getAltitude
      have e2 : 1 - 44330 * (1 - (p/q) ^ ((0.1902949:ℝ))) / 44330
          = (p/q) ^ ((0.1902949:ℝ)) := by field_simp
      rw [e2, ← Real.rpow_mul hr0.le, Real.rpow_sub hr0, Real.rpow_one]
      have hcpos : (0:ℝ) < (p/q) ^ ((0.1902949:ℝ) * 5.255) :=
        Real.rpow_pos_of_pos hr0 _
      field_simp
      ring
    have hup2 : (2:ℝ) ^ ((1:ℝ) - 0.1902949 * 5.255) ≤ 1 + 1/1000000 := by
      rw [show (1:ℝ) - 0.1902949 * 5.255 = 3005 / 10000000000 by norm_num]
      exact two_rpow_small_le
    have hup : (p/q) ^ ((1:ℝ) - 0.1902949 * 5.255) ≤ 1 + 1/1000000 :=
      le_trans (Real.rpow_le_rpow hr0.le hr2 hε) hup2
    have hlo : 1 - 1/1000000 ≤ (p/q) ^ ((1:ℝ) - 0.1902949 * 5.255) := by
      have ha : ((1:ℝ)/2) ^ ((1:ℝ) - 0.1902949 * 5.255)
          ≤ (p/q) ^ ((1:ℝ) - 0.1902949 * 5.255) :=
        Real.rpow_le_rpow (by norm_num) hr1 hε
      have hb : ((1:ℝ)/2) ^ ((1:ℝ) - 0.1902949 * 5.255)
          = ((2:ℝ) ^ ((1:ℝ) - 0.1902949 * 5.255))⁻¹ := by
        rw [one_div, Real.inv_rpow (by norm_num : (0:ℝ) ≤ 2)]
      have hc : ((1:ℝ) + 1/1000000)⁻¹ ≤ ((2:ℝ) ^ ((1:ℝ) - 0.1902949 * 5.255))⁻¹ :=
        inv_le_inv_of_le (Real.rpow_pos_of_pos two_pos _) hup2
      have hd : 1 - 1/1000000 ≤ ((1:ℝ) + 1/1000000)⁻¹ := by norm_num
      rw [hb] at ha
      linarith
    rw [key]
    have habs : |(p/q) ^ ((1:ℝ) - 0.1902949 * 5.255) - 1| ≤ 1/1000000 :=
      abs_le.mpr ⟨by linarith, by linarith⟩
    have e3 : q * (p/q) ^ ((1:ℝ) - 0.1902949 * 5.255) - q
        = q * ((p/q) ^ ((1:ℝ) - 0.1902949 * 5.255) - 1) := by ring
    rw [e3, abs_mul, abs_of_pos hq]
    exact mul_le_mul_of_nonneg_left habs hq.le

/-- C9 witness: both parts of the amended statement instantiated at the
default sea-level reference pressure 101325 Pa. -/
theorem altitude_roundtrip_props_witness :
    ((0:ℝ) < 101325 ∧ getAltitude 101325 101325 = 0) ∧
    ((0:ℝ) < 101325 ∧ (101325:ℝ) / 2 ≤ 101325 ∧ (101325:ℝ) ≤ 2 * 101325 ∧
     |getSeaLevel 101325 (getAltitude 101325 101325) - 101325|
       ≤ 101325 * (1 / 1000000)) :=
  ⟨⟨by norm_num, altitude_roundtrip_props.1 101325 (by norm_num)⟩,
   ⟨by norm_num, by norm_num, by norm_num,
    altitude_roundtrip_props.2 101325 101325 (by norm_num) (by norm_num)
      (by norm_num) (by norm_num)⟩⟩

end MS5611
